import Mathlib

/-
Verification of the facatura entity-management core (company / client /
bank-account managers) against its specification.  The managers are embedded
shallowly: each SQL statement used by the source becomes a pure list
operation, each manager method a pure function on an explicit database state.
-/

namespace Facatura

/-- Row of the `bank_accounts` table (schema from `facatura/db/setup_db.py`):
the columns used by the core managers.  The table carries
`UNIQUE(entity_id, entity_type, account_number)`. -/
structure BankRow where
  id : Int
  bank_name : String
  account_number : String
  swift_code : Option String
  iban : Option String
  currency : String
  entity_id : Int
  entity_type : String
  is_default : Bool
deriving Repr, DecidableEq

/-- Row of the `companies` table (schema from `facatura/db/setup_db.py`). -/
structure CompanyRow where
  id : Int
  name : String
  address : String
  city : String
  county : Option String
  postal_code : Option String
  country : String
  registration_number : String
  fiscal_code : String
  vat_payer : Bool
  phone : Option String
  email : Option String
  website : Option String
  logo_path : Option String
  default_bank_account : Option Int
deriving Repr, DecidableEq

/-- Row of the `clients` table (schema from `facatura/db/setup_db.py`);
unlike companies, `registration_number` is nullable and there is no
`logo_path`. -/
structure ClientRow where
  id : Int
  name : String
  address : String
  city : String
  county : Option String
  postal_code : Option String
  country : String
  registration_number : Option String
  fiscal_code : String
  vat_payer : Bool
  phone : Option String
  email : Option String
  website : Option String
  default_bank_account : Option Int
deriving Repr, DecidableEq

/-- Errors raised inside manager operations: `valueError` for the explicit
`raise ValueError(...)` validations, `integrityError` for a storage-engine
uniqueness-constraint violation, `storageError` for an injected
storage-engine failure (disk error etc.). -/
inductive Err where
  | valueError (msg : String)
  | integrityError (msg : String)
  | storageError
deriving Repr, DecidableEq

/-- The database state: the three tables touched by the managers, as lists in
insertion order, plus the AUTOINCREMENT counters.

Modelled from the spec: the `DatabaseManager` class used by the managers
(`with self.db_manager:` scoped transactions, `fetch_one`, `fetch_all`,
`execute`, `rollback`) is code of this repository missing from src/ (only
callers are present; `core/db.py` holds a different `Database` class).  Per
spec section 4.1 a scope commits on clean exit and rolls back on error, so
each `with` block of a manager is embedded as an
atomically-applied-or-discarded state change. -/
structure DB where
  companies : List CompanyRow
  clients : List ClientRow
  bank_accounts : List BankRow
  next_company_id : Int
  next_client_id : Int
  next_account_id : Int
deriving Repr, DecidableEq

/-- Effect on one row of `UPDATE bank_accounts SET is_default = 0 WHERE
entity_id = ? AND entity_type = ?`. -/
def clearRow (entity_id : Int) (entity_type : String) (r : BankRow) : BankRow :=
  if r.entity_id == entity_id && r.entity_type == entity_type then
    { r with is_default := false }
  else r

/-- `UPDATE bank_accounts SET is_default = 0 WHERE entity_id = ? AND
entity_type = ?` (the statement shared by `BankAccount.create`,
`BankAccount.update` and `BankAccount.set_default`). -/
def clearDefaults (l : List BankRow) (entity_id : Int) (entity_type : String) : List BankRow :=
  l.map (clearRow entity_id entity_type)

/-- `UPDATE bank_accounts SET ... WHERE id = ?`: apply `g` to the rows whose
id matches. -/
def updateRowById (l : List BankRow) (i : Int) (g : BankRow → BankRow) : List BankRow :=
  l.map fun r => if r.id == i then g r else r

/-- `INSERT INTO bank_accounts (...) VALUES (...)`, honoring the schema's
`UNIQUE(entity_id, entity_type, account_number)` constraint; on success
returns `cursor.lastrowid` and the grown table. -/
def bankInsert (db : DB) (bank_name account_number : String) (swift_code iban : Option String)
    (currency : String) (entity_id : Int) (entity_type : String) (is_default : Bool) :
    Except Err (Int × DB) :=
  if db.bank_accounts.any (fun r =>
      r.entity_id == entity_id && r.entity_type == entity_type &&
        r.account_number == account_number) then
    .error (.integrityError "UNIQUE constraint failed: bank_accounts.entity_id, bank_accounts.entity_type, bank_accounts.account_number")
  else
    .ok (db.next_account_id,
      { db with
          bank_accounts := db.bank_accounts ++
            [{ id := db.next_account_id, bank_name, account_number, swift_code, iban,
               currency, entity_id, entity_type, is_default }],
          next_account_id := db.next_account_id + 1 })

/-- `BankAccount.create` (src/facatura/core/bank_account.py:25-77): validate,
then — in one scoped transaction of its own — clear existing defaults when
`is_default` is set, then — in a second scoped transaction — insert the new
row.  If the insert fails, the already-committed clearing persists. -/
def BankAccount.create (db : DB) (bank_name account_number : String) (entity_id : Int)
    (entity_type : String) (swift_code iban : Option String) (currency : String)
    (is_default : Bool) : Except Err Int × DB :=
  if bank_name = "" then (.error (.valueError "Bank name cannot be empty"), db)
  else if account_number = "" then (.error (.valueError "Account number cannot be empty"), db)
  else if entity_id ≤ 0 then (.error (.valueError "Entity ID must be a positive integer"), db)
  else if ¬(entity_type = "company" ∨ entity_type = "client") then
    (.error (.valueError "Entity type must be 'company' or 'client'"), db)
  else
    let db1 :=
      if is_default then
        { db with bank_accounts := clearDefaults db.bank_accounts entity_id entity_type }
      else db
    match bankInsert db1 bank_name account_number swift_code iban currency
        entity_id entity_type is_default with
    | .ok (newId, db2) => (.ok newId, db2)
    | .error e => (.error e, db1)

/-- `BankAccount.get` (bank_account.py:79-93): `SELECT * FROM bank_accounts
WHERE id = ?`, `None` when absent. -/
def BankAccount.get (db : DB) (account_id : Int) : Option BankRow :=
  db.bank_accounts.find? fun r => r.id == account_id

/-- `BankAccount.get_by_entity` (bank_account.py:95-116), validation aside:
all rows for the entity, in insertion order. -/
def BankAccount.get_by_entity (db : DB) (entity_id : Int) (entity_type : String) :
    List BankRow :=
  db.bank_accounts.filter fun r => r.entity_id == entity_id && r.entity_type == entity_type

/-- The `**kwargs` of `BankAccount.update`: a field is `some _` exactly when
the corresponding key is present in the dictionary.  `extra` stands for any
further keys, which the source never reads except for membership in its
fixed `allowed_fields` set. -/
structure BankAccountKwargs where
  id : Option Int := none
  entity_id : Option Int := none
  entity_type : Option String := none
  bank_name : Option String := none
  account_number : Option String := none
  swift_code : Option (Option String) := none
  iban : Option (Option String) := none
  currency : Option String := none
  is_default : Option Bool := none
  extra : List String := []
deriving Repr, DecidableEq

/-- Whether any key of the fixed `allowed_fields` set of `BankAccount.update`
is present (`update_fields` nonempty). -/
def BankAccountKwargs.hasRecognized (k : BankAccountKwargs) : Bool :=
  k.bank_name.isSome || k.account_number.isSome || k.swift_code.isSome ||
    k.iban.isSome || k.currency.isSome || k.is_default.isSome

/-- Effect on one row of `UPDATE bank_accounts SET <update_fields> WHERE id = ?`. -/
def applyBankKwargs (r : BankRow) (k : BankAccountKwargs) : BankRow :=
  { r with
      bank_name := k.bank_name.getD r.bank_name
      account_number := k.account_number.getD r.account_number
      swift_code := k.swift_code.getD r.swift_code
      iban := k.iban.getD r.iban
      currency := k.currency.getD r.currency
      is_default := k.is_default.getD r.is_default }

/-- `BankAccount.update` (bank_account.py:141-193): missing id returns
`False`; keys `id`/`entity_id`/`entity_type` raise; a truthy `is_default`
first clears existing defaults for the account's entity in a scoped
transaction of its own; no recognized field is a no-op `True`; otherwise the
row is updated in a second scoped transaction and `rowcount > 0` returned. -/
def BankAccount.update (db : DB) (account_id : Int) (k : BankAccountKwargs) :
    Except Err Bool × DB :=
  match BankAccount.get db account_id with
  | none => (.ok false, db)
  | some account =>
    if k.id.isSome then (.error (.valueError "Cannot update account ID"), db)
    else if k.entity_id.isSome then (.error (.valueError "Cannot update entity ID"), db)
    else if k.entity_type.isSome then (.error (.valueError "Cannot update entity type"), db)
    else
      let db1 :=
        if k.is_default = some true then
          { db with
              bank_accounts := clearDefaults db.bank_accounts account.entity_id account.entity_type }
        else db
      if ¬k.hasRecognized then (.ok true, db1)
      else
        (.ok (db1.bank_accounts.any fun r => r.id == account_id),
          { db1 with
              bank_accounts :=
                updateRowById db1.bank_accounts account_id fun r => applyBankKwargs r k })

/-- `BankAccount.set_default` (bank_account.py:212-239): missing id returns
`False`; otherwise, in one scoped transaction, clear the entity's defaults
and set this row's flag, returning `rowcount > 0`. -/
def BankAccount.set_default (db : DB) (account_id : Int) : Except Err Bool × DB :=
  match BankAccount.get db account_id with
  | none => (.ok false, db)
  | some account =>
    let cleared := clearDefaults db.bank_accounts account.entity_id account.entity_type
    (.ok (cleared.any fun r => r.id == account_id),
      { db with
          bank_accounts :=
            updateRowById cleared account_id fun r => { r with is_default := true } })

/-- The row inserted by `Company.create` (company table columns in source
order; `default_bank_account` is not in the INSERT column list, so NULL). -/
def companyRowOf (db : DB) (name address city registration_number fiscal_code : String)
    (county postal_code : Option String) (country : String) (vat_payer : Bool)
    (phone email website logo_path : Option String) : CompanyRow :=
  { id := db.next_company_id, name, address, city, county, postal_code, country,
    registration_number, fiscal_code, vat_payer, phone, email, website, logo_path,
    default_bank_account := none }

/-- `Company.create` (src/facatura/core/company.py:28-92): non-emptiness
checks on the five required fields in source order (first failure raises),
then — in one scoped transaction — the duplicate-fiscal-code lookup and the
insert. -/
def Company.create (db : DB) (name address city registration_number fiscal_code : String)
    (county postal_code : Option String) (country : String) (vat_payer : Bool)
    (phone email website logo_path : Option String) : Except Err Int × DB :=
  if name = "" then (.error (.valueError "Company name cannot be empty"), db)
  else if address = "" then (.error (.valueError "Company address cannot be empty"), db)
  else if city = "" then (.error (.valueError "Company city cannot be empty"), db)
  else if registration_number = "" then
    (.error (.valueError "Company registration number cannot be empty"), db)
  else if fiscal_code = "" then (.error (.valueError "Company fiscal code cannot be empty"), db)
  else
    match db.companies.find? (fun r => r.fiscal_code == fiscal_code) with
    | some _ =>
      (.error (.valueError s!"A company with fiscal code '{fiscal_code}' already exists"), db)
    | none =>
      (.ok db.next_company_id,
        { db with
            companies := db.companies ++
              [companyRowOf db name address city registration_number fiscal_code
                county postal_code country vat_payer phone email website logo_path],
            next_company_id := db.next_company_id + 1 })

/-- `Company.get` (company.py:94-108): `SELECT * FROM companies WHERE id = ?`. -/
def Company.get (db : DB) (company_id : Int) : Option CompanyRow :=
  db.companies.find? fun r => r.id == company_id

/-- `Company.get_by_fiscal_code` (company.py:110-124). -/
def Company.get_by_fiscal_code (db : DB) (fiscal_code : String) : Option CompanyRow :=
  db.companies.find? fun r => r.fiscal_code == fiscal_code

/-- The `**kwargs` of `Company.update`: a field is `some _` exactly when the
key is present; `extra` stands for any keys outside the source's
`allowed_fields` set and outside `id`, which the source never reads. -/
structure CompanyKwargs where
  id : Option Int := none
  name : Option String := none
  address : Option String := none
  city : Option String := none
  county : Option (Option String) := none
  postal_code : Option (Option String) := none
  country : Option String := none
  registration_number : Option String := none
  fiscal_code : Option String := none
  vat_payer : Option Bool := none
  phone : Option (Option String) := none
  email : Option (Option String) := none
  website : Option (Option String) := none
  logo_path : Option (Option String) := none
  default_bank_account : Option (Option Int) := none
  extra : List String := []
deriving Repr, DecidableEq

/-- Whether any key of the fixed `allowed_fields` set of `Company.update` is
present (`update_fields` nonempty). -/
def CompanyKwargs.hasRecognized (k : CompanyKwargs) : Bool :=
  k.name.isSome || k.address.isSome || k.city.isSome || k.county.isSome ||
    k.postal_code.isSome || k.country.isSome || k.registration_number.isSome ||
    k.fiscal_code.isSome || k.vat_payer.isSome || k.phone.isSome || k.email.isSome ||
    k.website.isSome || k.logo_path.isSome || k.default_bank_account.isSome

/-- Effect on one row of `UPDATE companies SET <update_fields> WHERE id = ?`. -/
def applyCompanyKwargs (r : CompanyRow) (k : CompanyKwargs) : CompanyRow :=
  { r with
      name := k.name.getD r.name
      address := k.address.getD r.address
      city := k.city.getD r.city
      county := k.county.getD r.county
      postal_code := k.postal_code.getD r.postal_code
      country := k.country.getD r.country
      registration_number := k.registration_number.getD r.registration_number
      fiscal_code := k.fiscal_code.getD r.fiscal_code
      vat_payer := k.vat_payer.getD r.vat_payer
      phone := k.phone.getD r.phone
      email := k.email.getD r.email
      website := k.website.getD r.website
      logo_path := k.logo_path.getD r.logo_path
      default_bank_account := k.default_bank_account.getD r.default_bank_account }

/-- `Company.update` (company.py:136-198, the operative variant with the
`try`/`except` around the UPDATE): missing id returns `False`; key `id`
raises; a changed fiscal code colliding with an existing row raises; no
recognized field is a no-op `True`; otherwise the UPDATE runs inside
`try`/`except` — `failUpdate` injects a storage-engine failure there, which
the source catches, prints (`print(f"Error updating company: ...")`) and
converts to `False`.  The third component is the list of printed messages. -/
def Company.update (db : DB) (company_id : Int) (k : CompanyKwargs) (failUpdate : Bool) :
    Except Err Bool × DB × List String :=
  match Company.get db company_id with
  | none => (.ok false, db, [])
  | some company =>
    if k.id.isSome then (.error (.valueError "Cannot update company ID"), db, [])
    else
    let fc := k.fiscal_code.getD company.fiscal_code
    if fc ≠ company.fiscal_code ∧ (db.companies.find? (fun r => r.fiscal_code == fc)).isSome then
      (.error (.valueError s!"A company with fiscal code '{fc}' already exists"), db, [])
    else if ¬k.hasRecognized then (.ok true, db, [])
    else if failUpdate then
      (.ok false, db, ["Error updating company: storage error"])
    else
      (.ok (db.companies.any fun r => r.id == company_id),
        { db with
            companies := db.companies.map fun r =>
              if r.id == company_id then applyCompanyKwargs r k else r },
        [])

/-- `Company.delete` (company.py:207-241): fetch the company's accounts, then
in one scoped transaction delete each fetched account by id and delete the
company row, returning `rowcount > 0`; on a storage failure anywhere inside
the transaction (`failAt = some i` injects one at the `i`-th statement) the
source rolls back, prints and returns `False`. -/
def Company.delete (db : DB) (company_id : Int) (failAt : Option Nat) :
    Except Err Bool × DB × List String :=
  let accounts := BankAccount.get_by_entity db company_id "company"
  let failed : Bool := match failAt with
    | some i => i < accounts.length + 1
    | none => false
  if failed then
    (.ok false, db, ["Error deleting company: storage error"])
  else
    (.ok (db.companies.any fun r => r.id == company_id),
      { db with
          bank_accounts := db.bank_accounts.filter fun r =>
            ¬accounts.any fun a => a.id == r.id,
          companies := db.companies.filter fun r => ¬r.id == company_id },
      [])

/-- `Company.add_bank_account` (company.py:259-295): raises if the company
does not exist, else delegates to `BankAccount.create` with entity type
`'company'`, and when `is_default` is set also writes the company's
`default_bank_account` back-reference via `Company.update`. -/
def Company.add_bank_account (db : DB) (company_id : Int) (bank_name account_number : String)
    (swift_code iban : Option String) (currency : String) (is_default : Bool) :
    Except Err Int × DB × List String :=
  match Company.get db company_id with
  | none => (.error (.valueError s!"Company with ID {company_id} does not exist"), db, [])
  | some _ =>
    match BankAccount.create db bank_name account_number company_id "company"
        swift_code iban currency is_default with
    | (.error e, db1) => (.error e, db1, [])
    | (.ok newId, db1) =>
      if is_default then
        let u := Company.update db1 company_id { default_bank_account := some (some newId) } false
        (.ok newId, u.2.1, u.2.2)
      else
        (.ok newId, db1, [])

/-- The row inserted by `Client.create` (client table columns in source
order; `default_bank_account` is not in the INSERT column list, so NULL). -/
def clientRowOf (db : DB) (name address city fiscal_code : String)
    (registration_number county postal_code : Option String) (country : String)
    (vat_payer : Bool) (phone email website : Option String) : ClientRow :=
  { id := db.next_client_id, name, address, city, county, postal_code, country,
    registration_number, fiscal_code, vat_payer, phone, email, website,
    default_bank_account := none }

/-- `Client.create` (src/facatura/core/client.py:28-89): non-emptiness checks
on the four required fields in source order (first failure raises;
registration number is optional for clients), then — in one scoped
transaction — the duplicate-fiscal-code lookup and the insert. -/
def Client.create (db : DB) (name address city fiscal_code : String)
    (registration_number county postal_code : Option String) (country : String)
    (vat_payer : Bool) (phone email website : Option String) : Except Err Int × DB :=
  if name = "" then (.error (.valueError "Client name cannot be empty"), db)
  else if address = "" then (.error (.valueError "Client address cannot be empty"), db)
  else if city = "" then (.error (.valueError "Client city cannot be empty"), db)
  else if fiscal_code = "" then (.error (.valueError "Client fiscal code cannot be empty"), db)
  else
    match db.clients.find? (fun r => r.fiscal_code == fiscal_code) with
    | some _ =>
      (.error (.valueError s!"A client with fiscal code '{fiscal_code}' already exists"), db)
    | none =>
      (.ok db.next_client_id,
        { db with
            clients := db.clients ++
              [clientRowOf db name address city fiscal_code registration_number
                county postal_code country vat_payer phone email website],
            next_client_id := db.next_client_id + 1 })

/-- `Client.get` (client.py:91-105). -/
def Client.get (db : DB) (client_id : Int) : Option ClientRow :=
  db.clients.find? fun r => r.id == client_id

/-- `Client.get_by_fiscal_code` (client.py:107-121). -/
def Client.get_by_fiscal_code (db : DB) (fiscal_code : String) : Option ClientRow :=
  db.clients.find? fun r => r.fiscal_code == fiscal_code

/-- The `**kwargs` of `Client.update`, as for `CompanyKwargs` (no logo path
in the client allow-list). -/
structure ClientKwargs where
  id : Option Int := none
  name : Option String := none
  address : Option String := none
  city : Option String := none
  county : Option (Option String) := none
  postal_code : Option (Option String) := none
  country : Option String := none
  registration_number : Option (Option String) := none
  fiscal_code : Option String := none
  vat_payer : Option Bool := none
  phone : Option (Option String) := none
  email : Option (Option String) := none
  website : Option (Option String) := none
  default_bank_account : Option (Option Int) := none
  extra : List String := []
deriving Repr, DecidableEq

/-- Whether any key of the fixed `allowed_fields` set of `Client.update` is
present (`update_fields` nonempty). -/
def ClientKwargs.hasRecognized (k : ClientKwargs) : Bool :=
  k.name.isSome || k.address.isSome || k.city.isSome || k.county.isSome ||
    k.postal_code.isSome || k.country.isSome || k.registration_number.isSome ||
    k.fiscal_code.isSome || k.vat_payer.isSome || k.phone.isSome || k.email.isSome ||
    k.website.isSome || k.default_bank_account.isSome

/-- Effect on one row of `UPDATE clients SET <update_fields> WHERE id = ?`. -/
def applyClientKwargs (r : ClientRow) (k : ClientKwargs) : ClientRow :=
  { r with
      name := k.name.getD r.name
      address := k.address.getD r.address
      city := k.city.getD r.city
      county := k.county.getD r.county
      postal_code := k.postal_code.getD r.postal_code
      country := k.country.getD r.country
      registration_number := k.registration_number.getD r.registration_number
      fiscal_code := k.fiscal_code.getD r.fiscal_code
      vat_payer := k.vat_payer.getD r.vat_payer
      phone := k.phone.getD r.phone
      email := k.email.getD r.email
      website := k.website.getD r.website
      default_bank_account := k.default_bank_account.getD r.default_bank_account }

/-- `Client.update` (client.py:133-195, the operative variant with the
`try`/`except` around the UPDATE), mirroring `Company.update`: a storage
failure at the UPDATE (`failUpdate`) is caught, printed and turned into
`False`. -/
def Client.update (db : DB) (client_id : Int) (k : ClientKwargs) (failUpdate : Bool) :
    Except Err Bool × DB × List String :=
  match Client.get db client_id with
  | none => (.ok false, db, [])
  | some client =>
    if k.id.isSome then (.error (.valueError "Cannot update client ID"), db, [])
    else
    let fc := k.fiscal_code.getD client.fiscal_code
    if fc ≠ client.fiscal_code ∧ (db.clients.find? (fun r => r.fiscal_code == fc)).isSome then
      (.error (.valueError s!"A client with fiscal code '{fc}' already exists"), db, [])
    else if ¬k.hasRecognized then (.ok true, db, [])
    else if failUpdate then
      (.ok false, db, ["Error updating client: storage error"])
    else
      (.ok (db.clients.any fun r => r.id == client_id),
        { db with
            clients := db.clients.map fun r =>
              if r.id == client_id then applyClientKwargs r k else r },
        [])

/-- `Client.delete` (client.py:204-238), mirroring `Company.delete`: delete
the client's fetched accounts and the client row in one scoped transaction;
an injected storage failure (`failAt`) is rolled back, printed and turned
into `False`. -/
def Client.delete (db : DB) (client_id : Int) (failAt : Option Nat) :
    Except Err Bool × DB × List String :=
  let accounts := BankAccount.get_by_entity db client_id "client"
  let failed : Bool := match failAt with
    | some i => i < accounts.length + 1
    | none => false
  if failed then
    (.ok false, db, ["Error deleting client: storage error"])
  else
    (.ok (db.clients.any fun r => r.id == client_id),
      { db with
          bank_accounts := db.bank_accounts.filter fun r =>
            ¬accounts.any fun a => a.id == r.id,
          clients := db.clients.filter fun r => ¬r.id == client_id },
      [])

/-- `Client.add_bank_account` (client.py:256-292), mirroring
`Company.add_bank_account` with entity type `'client'`. -/
def Client.add_bank_account (db : DB) (client_id : Int) (bank_name account_number : String)
    (swift_code iban : Option String) (currency : String) (is_default : Bool) :
    Except Err Int × DB × List String :=
  match Client.get db client_id with
  | none => (.error (.valueError s!"Client with ID {client_id} does not exist"), db, [])
  | some _ =>
    match BankAccount.create db bank_name account_number client_id "client"
        swift_code iban currency is_default with
    | (.error e, db1) => (.error e, db1, [])
    | (.ok newId, db1) =>
      if is_default then
        let u := Client.update db1 client_id { default_bank_account := some (some newId) } false
        (.ok newId, u.2.1, u.2.2)
      else
        (.ok newId, db1, [])

/-- Whether a row belongs to entity `(eid, ty)` and has its `is_default`
flag set. -/
def defaultKey (eid : Int) (ty : String) (r : BankRow) : Bool :=
  r.entity_id == eid && r.entity_type == ty && r.is_default

/-- Number of rows of the `bank_accounts` table that are flagged default for
entity `(eid, ty)`. -/
def defaultCount (l : List BankRow) (eid : Int) (ty : String) : Nat :=
  l.countP (defaultKey eid ty)

/-- The spec's invariant: at most one bank account per (entity-id,
entity-type) has is-default = true. -/
def atMostOneDefault (db : DB) (eid : Int) (ty : String) : Prop :=
  defaultCount db.bank_accounts eid ty ≤ 1

/-- One invocation of a default-flag-relevant `BankAccount` operation, with
its arguments. -/
inductive BankOp where
  | create (bank_name account_number : String) (entity_id : Int) (entity_type : String)
      (swift_code iban : Option String) (currency : String) (is_default : Bool)
  | update (account_id : Int) (k : BankAccountKwargs)
  | set_default (account_id : Int)
deriving Repr

/-- The database state after one `BankAccount` operation (whatever its
result or error). -/
def applyBankOp (db : DB) (op : BankOp) : DB :=
  match op with
  | .create bn an eid ty sc ib cur isd =>
    (BankAccount.create db bn an eid ty sc ib cur isd).2
  | .update i k => (BankAccount.update db i k).2
  | .set_default i => (BankAccount.set_default db i).2

/-- The database state after a sequence of `BankAccount` operations. -/
def applyBankOps (db : DB) (ops : List BankOp) : DB := ops.foldl applyBankOp db

/-- Schema-level well-formedness of the `bank_accounts` table: row ids are
pairwise distinct (`id INTEGER PRIMARY KEY`) and below the AUTOINCREMENT
counter. -/
def WF (db : DB) : Prop :=
  (db.bank_accounts.map BankRow.id).Nodup ∧
    ∀ r ∈ db.bank_accounts, r.id < db.next_account_id

theorem defaultKey_iff (eid : Int) (ty : String) (r : BankRow) :
    defaultKey eid ty r = true ↔
      r.entity_id = eid ∧ r.entity_type = ty ∧ r.is_default = true := by
  simp [defaultKey, and_assoc]

theorem clearRow_id (e : Int) (t : String) (r : BankRow) : (clearRow e t r).id = r.id := by
  unfold clearRow; split <;> rfl

theorem clearRow_entity_id (e : Int) (t : String) (r : BankRow) :
    (clearRow e t r).entity_id = r.entity_id := by
  unfold clearRow; split <;> rfl

theorem clearRow_entity_type (e : Int) (t : String) (r : BankRow) :
    (clearRow e t r).entity_type = r.entity_type := by
  unfold clearRow; split <;> rfl

theorem defaultKey_clearRow_self (e : Int) (t : String) (r : BankRow) :
    defaultKey e t (clearRow e t r) = false := by
  unfold clearRow
  by_cases h : r.entity_id = e ∧ r.entity_type = t
  · rw [if_pos (by simp [h.1, h.2])]
    simp [defaultKey]
  · rw [if_neg (by simpa using h)]
    rw [Bool.eq_false_iff]
    intro hk
    exact h ⟨(defaultKey_iff e t r).mp hk |>.1, ((defaultKey_iff e t r).mp hk).2.1⟩

theorem defaultKey_clearRow_imp (e eid : Int) (t ty : String) (r : BankRow)
    (h : defaultKey eid ty (clearRow e t r) = true) : defaultKey eid ty r = true := by
  unfold clearRow at h
  by_cases hc : r.entity_id == e && r.entity_type == t
  · rw [if_pos hc] at h
    rw [defaultKey_iff] at h
    exact absurd h.2.2 (by simp)
  · rwa [if_neg hc] at h

theorem defaultCount_clearDefaults_self (l : List BankRow) (e : Int) (t : String) :
    defaultCount (clearDefaults l e t) e t = 0 := by
  unfold defaultCount clearDefaults
  rw [List.countP_map]
  apply List.countP_eq_zero.mpr
  intro r _
  simp only [Function.comp_apply, defaultKey_clearRow_self]
  simp

theorem defaultCount_clearDefaults_le (l : List BankRow) (e eid : Int) (t ty : String) :
    defaultCount (clearDefaults l e t) eid ty ≤ defaultCount l eid ty := by
  unfold defaultCount clearDefaults
  rw [List.countP_map]
  apply List.countP_mono_left
  intro r _ h
  exact defaultKey_clearRow_imp e eid t ty r h

theorem countP_id_le_one (l : List BankRow) (i : Int)
    (hn : (l.map BankRow.id).Nodup) :
    l.countP (fun r => r.id == i) ≤ 1 := by
  induction l with
  | nil => simp
  | cons a l ih =>
    simp only [List.map_cons, List.nodup_cons] at hn
    rw [List.countP_cons]
    by_cases h : a.id == i
    · have hz : l.countP (fun r => r.id == i) = 0 := by
        apply List.countP_eq_zero.mpr
        intro r hr hri
        simp only [beq_iff_eq] at h hri
        exact hn.1 (h ▸ hri ▸ List.mem_map_of_mem BankRow.id hr)
      simp [h, hz]
    · simp only [h, Bool.false_eq_true, if_false, Nat.add_zero]
      exact ih hn.2

theorem row_eq_of_id {l : List BankRow} (hn : (l.map BankRow.id).Nodup)
    {a r : BankRow} (ha : a ∈ l) (hr : r ∈ l) (h : r.id = a.id) : r = a :=
  List.inj_on_of_nodup_map hn hr ha h

theorem clearDefaults_map_id (l : List BankRow) (e : Int) (t : String) :
    (clearDefaults l e t).map BankRow.id = l.map BankRow.id := by
  unfold clearDefaults
  rw [List.map_map]
  apply List.map_congr_left
  intro r _
  exact clearRow_id e t r

theorem updateRowById_map_id (l : List BankRow) (i : Int) (g : BankRow → BankRow)
    (hg : ∀ r, (g r).id = r.id) :
    (updateRowById l i g).map BankRow.id = l.map BankRow.id := by
  unfold updateRowById
  rw [List.map_map]
  apply List.map_congr_left
  intro r _
  simp only [Function.comp_apply]
  split
  · exact hg r
  · rfl

theorem defaultCount_clear_set_le_one (l : List BankRow) (i : Int)
    (hn : (l.map BankRow.id).Nodup) (account : BankRow) (hmem : account ∈ l)
    (hid : account.id = i)
    (g : BankRow → BankRow)
    (hge : ∀ r, (g r).entity_id = r.entity_id)
    (hgt : ∀ r, (g r).entity_type = r.entity_type)
    (eid : Int) (ty : String) (hinv : defaultCount l eid ty ≤ 1) :
    defaultCount
      (updateRowById (clearDefaults l account.entity_id account.entity_type) i g) eid ty ≤ 1 := by
  unfold defaultCount updateRowById clearDefaults
  rw [List.map_map, List.countP_map]
  by_cases hkey : account.entity_id = eid ∧ account.entity_type = ty
  · refine le_trans (List.countP_mono_left ?_) (countP_id_le_one l i hn)
    intro r _ h
    simp only [Function.comp_apply, clearRow_id] at h
    by_cases hri : r.id == i
    · exact hri
    · exfalso
      rw [if_neg hri] at h
      obtain ⟨hk1, hk2⟩ := hkey
      rw [hk1, hk2] at h
      rw [defaultKey_clearRow_self] at h
      exact absurd h (by simp)
  · refine le_trans (List.countP_mono_left ?_) hinv
    intro r hr h
    simp only [Function.comp_apply, clearRow_id] at h
    by_cases hri : r.id == i
    · exfalso
      have hra : r = account :=
        row_eq_of_id hn hmem hr (by rw [beq_iff_eq] at hri; rw [hri, hid])
      rw [if_pos hri] at h
      rw [defaultKey_iff, hge, hgt, clearRow_entity_id, clearRow_entity_type, hra] at h
      exact hkey ⟨h.1, h.2.1⟩
    · rw [if_neg hri] at h
      exact defaultKey_clearRow_imp _ _ _ _ _ h

theorem defaultCount_append (l : List BankRow) (r : BankRow) (eid : Int) (ty : String) :
    defaultCount (l ++ [r]) eid ty =
      defaultCount l eid ty + (if defaultKey eid ty r then 1 else 0) := by
  unfold defaultCount
  rw [List.countP_append]
  simp [List.countP_cons]

theorem defaultCount_updateRowById_le (l : List BankRow) (i : Int) (g : BankRow → BankRow)
    (hge : ∀ r, (g r).entity_id = r.entity_id)
    (hgt : ∀ r, (g r).entity_type = r.entity_type)
    (hgd : ∀ r, (g r).is_default = true → r.is_default = true)
    (eid : Int) (ty : String) :
    defaultCount (updateRowById l i g) eid ty ≤ defaultCount l eid ty := by
  unfold defaultCount updateRowById
  rw [List.countP_map]
  apply List.countP_mono_left
  intro r _ h
  simp only [Function.comp_apply] at h
  split at h
  · rw [defaultKey_iff] at h ⊢
    exact ⟨(hge r).symm.trans h.1, (hgt r).symm.trans h.2.1, hgd r h.2.2⟩
  · exact h

theorem defaultCount_create_le_one (db : DB)
    (bn an : String) (e : Int) (t : String) (sc ib : Option String) (cur : String) (isd : Bool)
    (eid : Int) (ty : String)
    (hinv : defaultCount db.bank_accounts eid ty ≤ 1) :
    defaultCount ((BankAccount.create db bn an e t sc ib cur isd).2).bank_accounts eid ty ≤ 1 := by
  unfold BankAccount.create
  by_cases h1 : bn = ""
  · simpa [h1] using hinv
  by_cases h2 : an = ""
  · simpa [h1, h2] using hinv
  by_cases h3 : e ≤ 0
  · simpa [h1, h2, h3] using hinv
  by_cases h4 : ¬(t = "company" ∨ t = "client")
  · simpa [h1, h2, h3, h4] using hinv
  simp only [h1, h2, h3, h4, if_false]
  unfold bankInsert
  by_cases hdup : (if isd then
      { db with bank_accounts := clearDefaults db.bank_accounts e t }
      else db).bank_accounts.any fun r =>
        r.entity_id == e && r.entity_type == t && r.account_number == an
  · rw [if_pos hdup]
    cases isd with
    | true => exact le_trans (defaultCount_clearDefaults_le _ _ _ _ _) hinv
    | false => exact hinv
  · rw [if_neg hdup]
    show defaultCount (_ ++ [_]) eid ty ≤ 1
    rw [defaultCount_append]
    cases isd with
    | true =>
      simp only [reduceIte] at hdup ⊢
      by_cases hkey : e = eid ∧ t = ty
      · obtain ⟨hk1, hk2⟩ := hkey
        subst hk1; subst hk2
        have h0 : defaultCount
            ({ db with bank_accounts := clearDefaults db.bank_accounts e t } : DB).bank_accounts
            e t = 0 := defaultCount_clearDefaults_self db.bank_accounts e t
        rw [h0]
        split <;> simp
      · have hz : defaultKey eid ty
            { id := ({ db with bank_accounts := clearDefaults db.bank_accounts e t } : DB).next_account_id,
              bank_name := bn, account_number := an, swift_code := sc, iban := ib,
              currency := cur, entity_id := e, entity_type := t, is_default := true } = false := by
          rw [Bool.eq_false_iff]
          intro hk
          rw [defaultKey_iff] at hk
          exact hkey ⟨hk.1, hk.2.1⟩
        rw [hz]
        simp only [Bool.false_eq_true, if_false, Nat.add_zero]
        exact le_trans (defaultCount_clearDefaults_le _ _ _ _ _) hinv
    | false =>
      simp only [Bool.false_eq_true, reduceIte] at hdup ⊢
      have hz : defaultKey eid ty
          { id := db.next_account_id, bank_name := bn, account_number := an, swift_code := sc,
            iban := ib, currency := cur, entity_id := e, entity_type := t,
            is_default := false } = false := by
        rw [Bool.eq_false_iff]
        intro hk
        rw [defaultKey_iff] at hk
        exact absurd hk.2.2 (by simp)
      rw [hz]
      simpa using hinv

theorem defaultCount_update_le_one (db : DB) (i : Int) (k : BankAccountKwargs)
    (hn : (db.bank_accounts.map BankRow.id).Nodup)
    (eid : Int) (ty : String) (hinv : defaultCount db.bank_accounts eid ty ≤ 1) :
    defaultCount ((BankAccount.update db i k).2).bank_accounts eid ty ≤ 1 := by
  unfold BankAccount.update
  cases hacc : BankAccount.get db i with
  | none => exact hinv
  | some account =>
    unfold BankAccount.get at hacc
    simp only []
    have hmem : account ∈ db.bank_accounts := List.mem_of_find?_eq_some hacc
    have hidacc : account.id = i := by
      have h := List.find?_some hacc
      rwa [beq_iff_eq] at h
    by_cases hk1 : k.id.isSome
    · simpa [hk1] using hinv
    by_cases hk2 : k.entity_id.isSome
    · simpa [hk1, hk2] using hinv
    by_cases hk3 : k.entity_type.isSome
    · simpa [hk1, hk2, hk3] using hinv
    rw [if_neg hk1, if_neg hk2, if_neg hk3]
    by_cases hd : k.is_default = some true
    · have hrec : k.hasRecognized = true := by
        simp [BankAccountKwargs.hasRecognized, hd]
      rw [if_pos hd, if_neg (by simp [hrec])]
      exact defaultCount_clear_set_le_one db.bank_accounts i hn account hmem hidacc
        (fun r => applyBankKwargs r k) (fun r => rfl) (fun r => rfl) eid ty hinv
    · rw [if_neg hd]
      by_cases hrec : k.hasRecognized
      · rw [if_neg (by simp [hrec])]
        refine le_trans (defaultCount_updateRowById_le db.bank_accounts i
          (fun r => applyBankKwargs r k) (fun r => rfl) (fun r => rfl) ?_ eid ty) hinv
        intro r h
        cases hkd : k.is_default with
        | none => simpa [applyBankKwargs, hkd] using h
        | some b =>
          cases b with
          | true => exact absurd hkd hd
          | false => simp [applyBankKwargs, hkd] at h
      · rw [if_pos (by simpa using hrec)]
        exact hinv

theorem defaultCount_set_default_le_one (db : DB) (i : Int)
    (hn : (db.bank_accounts.map BankRow.id).Nodup)
    (eid : Int) (ty : String) (hinv : defaultCount db.bank_accounts eid ty ≤ 1) :
    defaultCount ((BankAccount.set_default db i).2).bank_accounts eid ty ≤ 1 := by
  unfold BankAccount.set_default
  cases hacc : BankAccount.get db i with
  | none => exact hinv
  | some account =>
    unfold BankAccount.get at hacc
    exact defaultCount_clear_set_le_one db.bank_accounts i hn account
      (List.mem_of_find?_eq_some hacc)
      (by have h := List.find?_some hacc; rwa [beq_iff_eq] at h)
      (fun r => { r with is_default := true }) (fun r => rfl) (fun r => rfl) eid ty hinv

theorem WF_bank_map (db : DB) (cs : List CompanyRow) (cls : List ClientRow)
    (l' : List BankRow)
    (hids : l'.map BankRow.id = db.bank_accounts.map BankRow.id) (h : WF db) :
    WF { db with companies := cs, clients := cls, bank_accounts := l' } := by
  obtain ⟨hn, hb⟩ := h
  refine ⟨?_, ?_⟩
  · show (l'.map BankRow.id).Nodup
    rw [hids]; exact hn
  · intro r hr
    have hmm : r.id ∈ l'.map BankRow.id := List.mem_map_of_mem _ hr
    rw [hids] at hmm
    obtain ⟨r0, hr0, hid⟩ := List.mem_map.mp hmm
    show r.id < db.next_account_id
    rw [← hid]
    exact hb r0 hr0

theorem WF_bank_append (db : DB) (cs : List CompanyRow) (cls : List ClientRow)
    (r : BankRow) (hr : r.id = db.next_account_id) (h : WF db) :
    WF { db with
          companies := cs
          clients := cls
          bank_accounts := db.bank_accounts ++ [r]
          next_account_id := db.next_account_id + 1 } := by
  obtain ⟨hn, hb⟩ := h
  refine ⟨?_, ?_⟩
  · show ((db.bank_accounts ++ [r]).map BankRow.id).Nodup
    rw [List.map_append, List.map_singleton, List.nodup_append]
    refine ⟨hn, List.nodup_singleton _, ?_⟩
    rw [List.disjoint_singleton, hr]
    intro hmm
    obtain ⟨r0, hr0, hid⟩ := List.mem_map.mp hmm
    exact absurd hid (ne_of_lt (hb r0 hr0))
  · intro x hx
    rcases List.mem_append.mp hx with hx | hx
    · exact lt_trans (hb x hx) (lt_add_one _)
    · rw [List.mem_singleton] at hx
      show x.id < db.next_account_id + 1
      rw [hx, hr]
      exact lt_add_one _

theorem WF_create (db : DB) (bn an : String) (e : Int) (t : String) (sc ib : Option String)
    (cur : String) (isd : Bool) (h : WF db) :
    WF (BankAccount.create db bn an e t sc ib cur isd).2 := by
  unfold BankAccount.create
  by_cases h1 : bn = ""
  · rw [if_pos h1]; exact h
  rw [if_neg h1]
  by_cases h2 : an = ""
  · rw [if_pos h2]; exact h
  rw [if_neg h2]
  by_cases h3 : e ≤ 0
  · rw [if_pos h3]; exact h
  rw [if_neg h3]
  by_cases h4 : ¬(t = "company" ∨ t = "client")
  · rw [if_pos h4]; exact h
  rw [if_neg h4]
  have hdb1 : WF (if isd then
      { db with bank_accounts := clearDefaults db.bank_accounts e t } else db) := by
    cases isd with
    | true =>
      simp only [reduceIte]
      exact WF_bank_map db _ _ _ (clearDefaults_map_id db.bank_accounts e t) h
    | false => simpa using h
  unfold bankInsert
  simp only []
  by_cases hdup : (if isd then
      { db with bank_accounts := clearDefaults db.bank_accounts e t }
      else db).bank_accounts.any fun r =>
        r.entity_id == e && r.entity_type == t && r.account_number == an
  · rw [if_pos hdup]
    exact hdb1
  · rw [if_neg hdup]
    exact WF_bank_append _ _ _ _ rfl hdb1

theorem WF_update (db : DB) (i : Int) (k : BankAccountKwargs) (h : WF db) :
    WF (BankAccount.update db i k).2 := by
  unfold BankAccount.update
  cases hacc : BankAccount.get db i with
  | none => exact h
  | some account =>
    simp only []
    by_cases hk1 : k.id.isSome
    · rw [if_pos hk1]; exact h
    rw [if_neg hk1]
    by_cases hk2 : k.entity_id.isSome
    · rw [if_pos hk2]; exact h
    rw [if_neg hk2]
    by_cases hk3 : k.entity_type.isSome
    · rw [if_pos hk3]; exact h
    rw [if_neg hk3]
    have hdb1 : WF (if k.is_default = some true then
        { db with bank_accounts :=
            clearDefaults db.bank_accounts account.entity_id account.entity_type }
        else db) := by
      by_cases hd : k.is_default = some true
      · rw [if_pos hd]
        exact WF_bank_map db _ _ _ (clearDefaults_map_id db.bank_accounts _ _) h
      · rw [if_neg hd]; exact h
    by_cases hrec : k.hasRecognized
    · rw [if_neg (by simp [hrec])]
      refine WF_bank_map _ _ _ _ ?_ hdb1
      exact updateRowById_map_id _ i (fun r => applyBankKwargs r k) (fun r => rfl)
    · rw [if_pos (by simpa using hrec)]
      exact hdb1

theorem WF_set_default (db : DB) (i : Int) (h : WF db) :
    WF (BankAccount.set_default db i).2 := by
  unfold BankAccount.set_default
  cases hacc : BankAccount.get db i with
  | none => exact h
  | some account =>
    simp only []
    refine WF_bank_map _ _ _ _ ?_ h
    rw [updateRowById_map_id _ i (fun r => { r with is_default := true }) (fun r => rfl)]
    exact clearDefaults_map_id db.bank_accounts _ _

theorem WF_applyBankOp (db : DB) (op : BankOp) (h : WF db) : WF (applyBankOp db op) := by
  cases op with
  | create bn an e t sc ib cur isd => exact WF_create db bn an e t sc ib cur isd h
  | update i k => exact WF_update db i k h
  | set_default i => exact WF_set_default db i h

theorem inv_applyBankOp (db : DB) (op : BankOp) (eid : Int) (ty : String)
    (h : WF db) (hinv : atMostOneDefault db eid ty) :
    atMostOneDefault (applyBankOp db op) eid ty := by
  cases op with
  | create bn an e t sc ib cur isd =>
    exact defaultCount_create_le_one db bn an e t sc ib cur isd eid ty hinv
  | update i k => exact defaultCount_update_le_one db i k h.1 eid ty hinv
  | set_default i => exact defaultCount_set_default_le_one db i h.1 eid ty hinv

/-- C1: for every (entity_id, entity_type) pair, after any sequence of
`BankAccount.create`, `BankAccount.update` and `BankAccount.set_default`
operations starting from a state satisfying the invariant, at most one
bank_accounts row with that pair has is_default = true.  `WF` supplies the
schema-level facts (`id INTEGER PRIMARY KEY` uniqueness and AUTOINCREMENT
freshness of `next_account_id`). -/
theorem bank_default_invariant (db : DB) (ops : List BankOp) (eid : Int) (ty : String)
    (hwf : WF db) (hinv : atMostOneDefault db eid ty) :
    atMostOneDefault (applyBankOps db ops) eid ty := by
  induction ops generalizing db with
  | nil => exact hinv
  | cons op ops ih =>
    exact ih (applyBankOp db op) (WF_applyBankOp db op hwf)
      (inv_applyBankOp db op eid ty hwf hinv)

/-- The empty database as produced by the schema bootstrap: no rows, all
AUTOINCREMENT counters at 1. -/
def dbEmpty : DB :=
  { companies := [], clients := [], bank_accounts := [],
    next_company_id := 1, next_client_id := 1, next_account_id := 1 }

/-- A sample operation sequence: two creates that both ask to be the default
account of company 1, then re-defaulting the first account. -/
def opsC1 : List BankOp :=
  [.create "Bank A" "RO01" 1 "company" none none "RON" true,
   .create "Bank B" "RO02" 1 "company" none none "RON" true,
   .set_default 1]

theorem bank_default_invariant_witness :
    (WF dbEmpty ∧ atMostOneDefault dbEmpty 1 "company") ∧
      atMostOneDefault (applyBankOps dbEmpty opsC1) 1 "company" :=
  ⟨⟨by unfold WF; decide, by unfold atMostOneDefault; decide⟩,
    bank_default_invariant dbEmpty opsC1 1 "company" (by unfold WF; decide)
      (by unfold atMostOneDefault; decide)⟩

theorem Company_create_ok (db : DB) (n a c rn fc : String) (co po : Option String)
    (ct : String) (v : Bool) (ph em wb lg : Option String)
    (hn : n ≠ "") (ha : a ≠ "") (hc : c ≠ "") (hr : rn ≠ "") (hf : fc ≠ "")
    (hfree : db.companies.find? (fun r => r.fiscal_code == fc) = none) :
    Company.create db n a c rn fc co po ct v ph em wb lg =
      (.ok db.next_company_id,
        { db with
            companies := db.companies ++ [companyRowOf db n a c rn fc co po ct v ph em wb lg]
            next_company_id := db.next_company_id + 1 }) := by
  unfold Company.create
  rw [if_neg hn, if_neg ha, if_neg hc, if_neg hr, if_neg hf, hfree]

theorem Company_create_dup (db : DB) (n a c rn fc : String) (co po : Option String)
    (ct : String) (v : Bool) (ph em wb lg : Option String) (r0 : CompanyRow)
    (hn : n ≠ "") (ha : a ≠ "") (hc : c ≠ "") (hr : rn ≠ "") (hf : fc ≠ "")
    (hdup : db.companies.find? (fun r => r.fiscal_code == fc) = some r0) :
    Company.create db n a c rn fc co po ct v ph em wb lg =
      (.error (.valueError s!"A company with fiscal code '{fc}' already exists"), db) := by
  unfold Company.create
  rw [if_neg hn, if_neg ha, if_neg hc, if_neg hr, if_neg hf, hdup]

theorem Client_create_ok (db : DB) (n a c fc : String) (rn co po : Option String)
    (ct : String) (v : Bool) (ph em wb : Option String)
    (hn : n ≠ "") (ha : a ≠ "") (hc : c ≠ "") (hf : fc ≠ "")
    (hfree : db.clients.find? (fun r => r.fiscal_code == fc) = none) :
    Client.create db n a c fc rn co po ct v ph em wb =
      (.ok db.next_client_id,
        { db with
            clients := db.clients ++ [clientRowOf db n a c fc rn co po ct v ph em wb]
            next_client_id := db.next_client_id + 1 }) := by
  unfold Client.create
  rw [if_neg hn, if_neg ha, if_neg hc, if_neg hf, hfree]

theorem Client_create_dup (db : DB) (n a c fc : String) (rn co po : Option String)
    (ct : String) (v : Bool) (ph em wb : Option String) (r0 : ClientRow)
    (hn : n ≠ "") (ha : a ≠ "") (hc : c ≠ "") (hf : fc ≠ "")
    (hdup : db.clients.find? (fun r => r.fiscal_code == fc) = some r0) :
    Client.create db n a c fc rn co po ct v ph em wb =
      (.error (.valueError s!"A client with fiscal code '{fc}' already exists"), db) := by
  unfold Client.create
  rw [if_neg hn, if_neg ha, if_neg hc, if_neg hf, hdup]

theorem find?_fiscal_none_of_forall {α : Type} (fiscal : α → String) (l : List α)
    (fc : String) (h : ∀ r ∈ l, fiscal r ≠ fc) :
    l.find? (fun r => fiscal r == fc) = none := by
  apply List.find?_eq_none.mpr
  intro r hr
  simp only [beq_iff_eq]
  exact h r hr

/-- C3: with required fields non-empty and fiscal code `fc` absent from both
tables, a first company create succeeds; a second company create with `fc`
fails with the uniqueness ValueError and leaves the database unchanged; a
client create with the same `fc` nonetheless succeeds, and a further client
create with `fc` then fails likewise — the two fiscal-code namespaces are
independent. -/
theorem fiscal_code_namespaces (db : DB) (fc : String)
    (n1 a1 c1 rn1 n2 a2 c2 rn2 nc ac cc nc2 ac2 cc2 : String)
    (co1 po1 ph1 em1 wb1 lg1 co2 po2 ph2 em2 wb2 lg2 : Option String)
    (ct1 ct2 ctc ctc2 : String) (v1 v2 vc vc2 : Bool)
    (rnc coc poc phc emc wbc rnc2 coc2 poc2 phc2 emc2 wbc2 : Option String)
    (hn1 : n1 ≠ "") (ha1 : a1 ≠ "") (hc1 : c1 ≠ "") (hr1 : rn1 ≠ "") (hf : fc ≠ "")
    (hn2 : n2 ≠ "") (ha2 : a2 ≠ "") (hc2 : c2 ≠ "") (hr2 : rn2 ≠ "")
    (hnc : nc ≠ "") (hac : ac ≠ "") (hcc : cc ≠ "")
    (hnc2 : nc2 ≠ "") (hac2 : ac2 ≠ "") (hcc2 : cc2 ≠ "")
    (hfreeCo : ∀ r ∈ db.companies, r.fiscal_code ≠ fc)
    (hfreeCl : ∀ r ∈ db.clients, r.fiscal_code ≠ fc)
    (r1 : Except Err Int) (db1 : DB)
    (h1 : Company.create db n1 a1 c1 rn1 fc co1 po1 ct1 v1 ph1 em1 wb1 lg1 = (r1, db1))
    (r2 : Except Err Int) (db2 : DB)
    (h2 : Client.create db1 nc ac cc fc rnc coc poc ctc vc phc emc wbc = (r2, db2)) :
    r1 = .ok db.next_company_id ∧
      Company.create db1 n2 a2 c2 rn2 fc co2 po2 ct2 v2 ph2 em2 wb2 lg2 =
        (.error (.valueError s!"A company with fiscal code '{fc}' already exists"), db1) ∧
      r2 = .ok db.next_client_id ∧
      Client.create db2 nc2 ac2 cc2 fc rnc2 coc2 poc2 ctc2 vc2 phc2 emc2 wbc2 =
        (.error (.valueError s!"A client with fiscal code '{fc}' already exists"), db2) := by
  have hfindCo : db.companies.find? (fun r => r.fiscal_code == fc) = none :=
    find?_fiscal_none_of_forall CompanyRow.fiscal_code db.companies fc hfreeCo
  have hfindCl : db.clients.find? (fun r => r.fiscal_code == fc) = none :=
    find?_fiscal_none_of_forall ClientRow.fiscal_code db.clients fc hfreeCl
  rw [Company_create_ok db n1 a1 c1 rn1 fc co1 po1 ct1 v1 ph1 em1 wb1 lg1
    hn1 ha1 hc1 hr1 hf hfindCo] at h1
  injection h1 with hr1eq hdb1
  have hcos : db1.companies =
      db.companies ++ [companyRowOf db n1 a1 c1 rn1 fc co1 po1 ct1 v1 ph1 em1 wb1 lg1] := by
    rw [← hdb1]
  have hcl : db1.clients = db.clients := by rw [← hdb1]
  have hncl : db1.next_client_id = db.next_client_id := by rw [← hdb1]
  rw [Client_create_ok db1 nc ac cc fc rnc coc poc ctc vc phc emc wbc
    hnc hac hcc hf (by rw [hcl]; exact hfindCl)] at h2
  injection h2 with hr2eq hdb2
  have hcl2 : db2.clients =
      db.clients ++ [clientRowOf db1 nc ac cc fc rnc coc poc ctc vc phc emc wbc] := by
    rw [← hdb2]
    show db1.clients ++ _ = _
    rw [hcl]
  have hdupCo : db1.companies.find? (fun r => r.fiscal_code == fc) =
      some (companyRowOf db n1 a1 c1 rn1 fc co1 po1 ct1 v1 ph1 em1 wb1 lg1) := by
    rw [hcos, List.find?_append, hfindCo, Option.none_or]
    exact List.find?_cons_of_pos _ (by simp [companyRowOf])
  have hdupCl : db2.clients.find? (fun r => r.fiscal_code == fc) =
      some (clientRowOf db1 nc ac cc fc rnc coc poc ctc vc phc emc wbc) := by
    rw [hcl2, List.find?_append, hfindCl, Option.none_or]
    exact List.find?_cons_of_pos _ (by simp [clientRowOf])
  refine ⟨hr1eq.symm, ?_, by rw [← hr2eq, hncl], ?_⟩
  · exact Company_create_dup db1 n2 a2 c2 rn2 fc co2 po2 ct2 v2 ph2 em2 wb2 lg2 _
      hn2 ha2 hc2 hr2 hf hdupCo
  · exact Client_create_dup db2 nc2 ac2 cc2 fc rnc2 coc2 poc2 ctc2 vc2 phc2 emc2 wbc2 _
      hnc2 hac2 hcc2 hf hdupCl

theorem fiscal_code_namespaces_witness :
    ("RO12345678" : String) ≠ "" ∧
      (Company.create dbEmpty "Acme SRL" "1 Main St" "Bucharest" "J12/345/2021" "RO12345678"
          none none "Romania" true none none none none).1 = .ok dbEmpty.next_company_id :=
  ⟨by decide,
    (fiscal_code_namespaces dbEmpty "RO12345678" "Acme SRL" "1 Main St" "Bucharest"
      "J12/345/2021" "Beta SRL" "2 Side St" "Cluj" "J12/999/2021" "Gamma SRL" "3 Cross St"
      "Iasi" "Delta SRL" "4 Ring Rd" "Dej"
      none none none none none none none none none none none none
      "Romania" "Romania" "Romania" "Romania" true true true true
      none none none none none none none none none none none none
      (by decide) (by decide) (by decide) (by decide) (by decide)
      (by decide) (by decide) (by decide) (by decide)
      (by decide) (by decide) (by decide)
      (by decide) (by decide) (by decide)
      (by decide) (by decide)
      _ _ rfl _ _ rfl).1⟩

/-- A concrete company row (the spec's sample data). -/
def acmeRow : CompanyRow :=
  { id := 1, name := "Acme SRL", address := "1 Main St", city := "Bucharest",
    county := none, postal_code := none, country := "Romania",
    registration_number := "J12/345/2021", fiscal_code := "RO12345678", vat_payer := true,
    phone := none, email := none, website := none, logo_path := none,
    default_bank_account := none }

/-- A concrete client row. -/
def gammaRow : ClientRow :=
  { id := 1, name := "Gamma SRL", address := "3 Cross St", city := "Iasi",
    county := none, postal_code := none, country := "Romania",
    registration_number := none, fiscal_code := "RO55555555", vat_payer := true,
    phone := none, email := none, website := none, default_bank_account := none }

/-- A concrete bank account row: the default account of company 1. -/
def bankRow1 : BankRow :=
  { id := 1, bank_name := "Test Bank", account_number := "123", swift_code := none,
    iban := none, currency := "RON", entity_id := 1, entity_type := "company",
    is_default := true }

/-- A concrete database: one company, one client, one bank account. -/
def dbOne : DB :=
  { companies := [acmeRow], clients := [gammaRow], bank_accounts := [bankRow1],
    next_company_id := 2, next_client_id := 2, next_account_id := 2 }

theorem isSome_false {α : Type} {a : Option α} (h : a.isSome = false) : a = none := by
  cases a with
  | none => rfl
  | some x => simp at h

theorem companyKwargs_fiscal_none (k : CompanyKwargs) (h : k.hasRecognized = false) :
    k.fiscal_code = none := by
  cases hx : k.fiscal_code with
  | none => rfl
  | some x => rw [CompanyKwargs.hasRecognized, hx] at h; simp at h

theorem clientKwargs_fiscal_none (k : ClientKwargs) (h : k.hasRecognized = false) :
    k.fiscal_code = none := by
  cases hx : k.fiscal_code with
  | none => rfl
  | some x => rw [ClientKwargs.hasRecognized, hx] at h; simp at h

theorem BankAccountKwargs.is_default_none (k : BankAccountKwargs)
    (h : k.hasRecognized = false) : k.is_default = none := by
  cases hx : k.is_default with
  | none => rfl
  | some x => rw [BankAccountKwargs.hasRecognized, hx] at h; simp at h

/-- C8: for both entity managers, update on a missing id returns False without
raising and changes nothing; update on an existing id whose kwargs contain
the key `id` raises the ValueError and leaves the database unchanged. -/
theorem update_missing_or_id (db : DB) (i : Int) (kc : CompanyKwargs) (kl : ClientKwargs)
    (f1 f2 : Bool) :
    (Company.get db i = none → Company.update db i kc f1 = (.ok false, db, [])) ∧
      (Client.get db i = none → Client.update db i kl f2 = (.ok false, db, [])) ∧
      (∀ c, Company.get db i = some c → kc.id.isSome = true →
        Company.update db i kc f1 = (.error (.valueError "Cannot update company ID"), db, [])) ∧
      (∀ cl, Client.get db i = some cl → kl.id.isSome = true →
        Client.update db i kl f2 = (.error (.valueError "Cannot update client ID"), db, [])) := by
  refine ⟨?_, ?_, ?_, ?_⟩
  · intro h
    unfold Company.update
    rw [h]
  · intro h
    unfold Client.update
    rw [h]
  · intro c h hid
    unfold Company.update
    rw [h]
    simp only []
    rw [if_pos hid]
  · intro cl h hid
    unfold Client.update
    rw [h]
    simp only []
    rw [if_pos hid]

theorem update_missing_or_id_witness :
    Company.get dbOne 7 = none ∧
      Company.update dbOne 7 { name := some "X" } false = (.ok false, dbOne, []) :=
  ⟨by decide,
    (update_missing_or_id dbOne 7 { name := some "X" } { } false false).1 (by decide)⟩

/-- C9 counterexample: the kwargs dictionary `{id: 2}` contains no
allow-listed field, yet `Company.update` raises the ValueError instead of
reporting no-op success. -/
theorem update_unrecognized_counterexample :
    CompanyKwargs.hasRecognized { id := some 2 } = false ∧
      Company.update dbOne 1 { id := some 2 } false =
        (.error (.valueError "Cannot update company ID"), dbOne, []) :=
  ⟨rfl, rfl⟩

/-- C9 (amended): for an existing company, client or bank account, an update
whose kwargs contain no allow-listed field and none of the immutable keys
(`id`; for bank accounts also `entity_id`, `entity_type`) is a no-op that
returns True and leaves the database unchanged; keys outside both sets
(`extra`) are silently ignored.  Supplying an immutable key raises instead
(see the counterexample). -/
theorem update_unrecognized_noop (db : DB) (i : Int) (kc : CompanyKwargs)
    (kl : ClientKwargs) (kb : BankAccountKwargs) (f1 f2 : Bool) :
    (∀ c, Company.get db i = some c → kc.id = none → kc.hasRecognized = false →
      Company.update db i kc f1 = (.ok true, db, [])) ∧
      (∀ cl, Client.get db i = some cl → kl.id = none → kl.hasRecognized = false →
        Client.update db i kl f2 = (.ok true, db, [])) ∧
      (∀ a, BankAccount.get db i = some a → kb.id = none → kb.entity_id = none →
        kb.entity_type = none → kb.hasRecognized = false →
        BankAccount.update db i kb = (.ok true, db)) := by
  refine ⟨?_, ?_, ?_⟩
  · intro c h hid hrec
    unfold Company.update
    rw [h]
    simp only []
    rw [if_neg (by simp [hid]), if_neg (by simp [companyKwargs_fiscal_none kc hrec]),
      if_pos (by simp [hrec])]
  · intro cl h hid hrec
    unfold Client.update
    rw [h]
    simp only []
    rw [if_neg (by simp [hid]), if_neg (by simp [clientKwargs_fiscal_none kl hrec]),
      if_pos (by simp [hrec])]
  · intro a h hid he ht hrec
    unfold BankAccount.update
    rw [h]
    simp only []
    rw [if_neg (by simp [hid]), if_neg (by simp [he]), if_neg (by simp [ht]),
      if_pos (by simp [hrec]),
      if_neg (by simp [BankAccountKwargs.is_default_none kb hrec])]

theorem update_unrecognized_noop_witness :
    Company.get dbOne 1 = some acmeRow ∧
      Company.update dbOne 1 { extra := ["bogus"] } false = (.ok true, dbOne, []) :=
  ⟨by decide,
    (update_unrecognized_noop dbOne 1 { extra := ["bogus"] } { } { } false false).1
      acmeRow (by decide) rfl rfl⟩

theorem find?_id_map_company (l : List CompanyRow) (i : Int) (g : CompanyRow → CompanyRow)
    (hg : ∀ r, (g r).id = r.id) :
    (l.map fun r => if r.id == i then g r else r).find? (fun r => r.id == i) =
      (l.find? fun r => r.id == i).map g := by
  induction l with
  | nil => rfl
  | cons a l ih =>
    simp only [List.map_cons]
    by_cases h : (a.id == i) = true
    · have hga : ((g a).id == i) = true := by rw [hg]; exact h
      rw [if_pos h]
      rw [@List.find?_cons_of_pos _ (fun r => r.id == i) (g a) _ hga]
      rw [@List.find?_cons_of_pos _ (fun r => r.id == i) a l h]
      rfl
    · rw [if_neg h]
      rw [@List.find?_cons_of_neg _ (fun r => r.id == i) a _ h]
      rw [@List.find?_cons_of_neg _ (fun r => r.id == i) a l h]
      exact ih

theorem find?_id_map_client (l : List ClientRow) (i : Int) (g : ClientRow → ClientRow)
    (hg : ∀ r, (g r).id = r.id) :
    (l.map fun r => if r.id == i then g r else r).find? (fun r => r.id == i) =
      (l.find? fun r => r.id == i).map g := by
  induction l with
  | nil => rfl
  | cons a l ih =>
    simp only [List.map_cons]
    by_cases h : (a.id == i) = true
    · have hga : ((g a).id == i) = true := by rw [hg]; exact h
      rw [if_pos h]
      rw [@List.find?_cons_of_pos _ (fun r => r.id == i) (g a) _ hga]
      rw [@List.find?_cons_of_pos _ (fun r => r.id == i) a l h]
      rfl
    · rw [if_neg h]
      rw [@List.find?_cons_of_neg _ (fun r => r.id == i) a _ h]
      rw [@List.find?_cons_of_neg _ (fun r => r.id == i) a l h]
      exact ih

theorem Company_update_apply (db : DB) (i : Int) (k : CompanyKwargs) (c : CompanyRow)
    (hget : Company.get db i = some c) (hid : k.id = none) (hfc : k.fiscal_code = none)
    (hrec : k.hasRecognized = true) :
    Company.update db i k false =
      (.ok true,
        { db with companies := db.companies.map fun r =>
            if r.id == i then applyCompanyKwargs r k else r }, []) := by
  have hany : (db.companies.any fun r => r.id == i) = true := by
    unfold Company.get at hget
    have hp := List.find?_some hget
    exact List.any_eq_true.mpr ⟨c, List.mem_of_find?_eq_some hget, hp⟩
  unfold Company.update
  rw [hget]
  simp only []
  rw [if_neg (by simp [hid]), if_neg (by simp [hfc]), if_neg (by simp [hrec]),
    if_neg (by simp), hany]

theorem Client_update_apply (db : DB) (i : Int) (k : ClientKwargs) (cl : ClientRow)
    (hget : Client.get db i = some cl) (hid : k.id = none) (hfc : k.fiscal_code = none)
    (hrec : k.hasRecognized = true) :
    Client.update db i k false =
      (.ok true,
        { db with clients := db.clients.map fun r =>
            if r.id == i then applyClientKwargs r k else r }, []) := by
  have hany : (db.clients.any fun r => r.id == i) = true := by
    unfold Client.get at hget
    have hp := List.find?_some hget
    exact List.any_eq_true.mpr ⟨cl, List.mem_of_find?_eq_some hget, hp⟩
  unfold Client.update
  rw [hget]
  simp only []
  rw [if_neg (by simp [hid]), if_neg (by simp [hfc]), if_neg (by simp [hrec]),
    if_neg (by simp), hany]

/-- C10: for an existing company or client, `update(id, {name: ""})` succeeds
(returns True) and a subsequent get returns the stored row with name the
empty string — update applies allow-listed values without the non-emptiness
validation that create enforces. -/
theorem update_allows_empty_name (db : DB) (i : Int) :
    (∀ c, Company.get db i = some c →
      (Company.update db i { name := some "" } false).1 = .ok true ∧
        Company.get (Company.update db i { name := some "" } false).2.1 i =
          some { c with name := "" }) ∧
      (∀ cl, Client.get db i = some cl →
        (Client.update db i { name := some "" } false).1 = .ok true ∧
          Client.get (Client.update db i { name := some "" } false).2.1 i =
            some { cl with name := "" }) := by
  constructor
  · intro c hget
    rw [Company_update_apply db i { name := some "" } c hget rfl rfl rfl]
    refine ⟨rfl, ?_⟩
    unfold Company.get at hget ⊢
    show (db.companies.map fun r =>
      if r.id == i then applyCompanyKwargs r { name := some "" } else r).find?
        (fun r => r.id == i) = _
    rw [find?_id_map_company db.companies i
      (fun r => applyCompanyKwargs r { name := some "" }) (fun r => rfl), hget]
    rfl
  · intro cl hget
    rw [Client_update_apply db i { name := some "" } cl hget rfl rfl rfl]
    refine ⟨rfl, ?_⟩
    unfold Client.get at hget ⊢
    show (db.clients.map fun r =>
      if r.id == i then applyClientKwargs r { name := some "" } else r).find?
        (fun r => r.id == i) = _
    rw [find?_id_map_client db.clients i
      (fun r => applyClientKwargs r { name := some "" }) (fun r => rfl), hget]
    rfl

theorem update_allows_empty_name_witness :
    Company.get dbOne 1 = some acmeRow ∧
      Company.get (Company.update dbOne 1 { name := some "" } false).2.1 1 =
        some { acmeRow with name := "" } :=
  ⟨by decide, ((update_allows_empty_name dbOne 1).1 acmeRow (by decide)).2⟩

/-- C5 counterexample: a storage-engine failure raised by the UPDATE
statement inside `Company.update` is caught, printed, and converted into an
ordinary False return — not propagated. -/
theorem update_swallows_counterexample :
    Company.update dbOne 1 { name := some "Acme 2" } true =
      (.ok false, dbOne, ["Error updating company: storage error"]) := rfl

/-- C5 (amended): `Company.update` and `Client.update` catch any
storage-engine error raised by their UPDATE statement, print an error line
and return False as an ordinary value instead of rolling the error up to the
caller; the spec's never-swallowed policy does not hold for these
operations. -/
theorem update_swallows_storage_error (db : DB) (i : Int) (kc : CompanyKwargs)
    (kl : ClientKwargs) :
    (∀ c, Company.get db i = some c → kc.id = none → kc.fiscal_code = none →
      kc.hasRecognized = true →
      Company.update db i kc true =
        (.ok false, db, ["Error updating company: storage error"])) ∧
      (∀ cl, Client.get db i = some cl → kl.id = none → kl.fiscal_code = none →
        kl.hasRecognized = true →
        Client.update db i kl true =
          (.ok false, db, ["Error updating client: storage error"])) := by
  constructor
  · intro c hget hid hfc hrec
    unfold Company.update
    rw [hget]
    simp only []
    rw [if_neg (by simp [hid]), if_neg (by simp [hfc]), if_neg (by simp [hrec]),
      if_pos trivial]
  · intro cl hget hid hfc hrec
    unfold Client.update
    rw [hget]
    simp only []
    rw [if_neg (by simp [hid]), if_neg (by simp [hfc]), if_neg (by simp [hrec]),
      if_pos trivial]

theorem update_swallows_witness :
    Company.get dbOne 1 = some acmeRow ∧
      Company.update dbOne 1 { name := some "X" } true =
        (.ok false, dbOne, ["Error updating company: storage error"]) :=
  ⟨by decide,
    (update_swallows_storage_error dbOne 1 { name := some "X" } { }).1 acmeRow
      (by decide) rfl rfl rfl⟩

theorem Company_delete_ok (db : DB) (i : Int) :
    Company.delete db i none =
      (.ok (db.companies.any fun r => r.id == i),
        { db with
            bank_accounts := db.bank_accounts.filter fun r =>
              ¬(BankAccount.get_by_entity db i "company").any fun a => a.id == r.id
            companies := db.companies.filter fun r => ¬r.id == i }, []) := rfl

theorem Client_delete_ok (db : DB) (i : Int) :
    Client.delete db i none =
      (.ok (db.clients.any fun r => r.id == i),
        { db with
            bank_accounts := db.bank_accounts.filter fun r =>
              ¬(BankAccount.get_by_entity db i "client").any fun a => a.id == r.id
            clients := db.clients.filter fun r => ¬r.id == i }, []) := rfl

theorem Company_delete_fail (db : DB) (i : Int) (j : Nat)
    (hj : j < (BankAccount.get_by_entity db i "company").length + 1) :
    Company.delete db i (some j) =
      (.ok false, db, ["Error deleting company: storage error"]) := by
  unfold Company.delete
  simp only []
  rw [if_pos (by simpa using hj)]

theorem Client_delete_fail (db : DB) (i : Int) (j : Nat)
    (hj : j < (BankAccount.get_by_entity db i "client").length + 1) :
    Client.delete db i (some j) =
      (.ok false, db, ["Error deleting client: storage error"]) := by
  unfold Client.delete
  simp only []
  rw [if_pos (by simpa using hj)]

theorem filter_not_id_nil_company (l : List CompanyRow) (i : Int) :
    (l.filter fun r => ¬r.id == i).filter (fun r => r.id == i) = [] := by
  rw [List.filter_eq_nil_iff]
  intro r hr
  have h := (List.mem_filter.mp hr).2
  simpa using h

theorem filter_not_id_nil_client (l : List ClientRow) (i : Int) :
    (l.filter fun r => ¬r.id == i).filter (fun r => r.id == i) = [] := by
  rw [List.filter_eq_nil_iff]
  intro r hr
  have h := (List.mem_filter.mp hr).2
  simpa using h

theorem delete_bank_filter_nil (db : DB) (i : Int) (t : String) :
    ((db.bank_accounts.filter fun r =>
        ¬(BankAccount.get_by_entity db i t).any fun a => a.id == r.id).filter
      fun r => r.entity_id == i && r.entity_type == t) = [] := by
  rw [List.filter_eq_nil_iff]
  intro r hr hkey
  obtain ⟨hmem, hnot⟩ := List.mem_filter.mp hr
  have hany : ((BankAccount.get_by_entity db i t).any fun a => a.id == r.id) = true := by
    refine List.any_eq_true.mpr ⟨r, ?_, by simp⟩
    unfold BankAccount.get_by_entity
    exact List.mem_filter.mpr ⟨hmem, hkey⟩
  simp [hany] at hnot

/-- C2: for both managers, `delete(id)` with no storage failure removes every
bank account owned by the entity and the entity row, returning True exactly
when the entity row existed; a storage failure at any statement of the
deleting transaction is rolled back entirely — the database is unchanged and
False is returned (with a printed log line, see C5). -/
theorem entity_delete_cascade (db : DB) (i : Int) :
    ((Company.delete db i none).1 = .ok (db.companies.any fun r => r.id == i) ∧
      (Company.delete db i none).2.1.companies.filter (fun r => r.id == i) = [] ∧
      ((Company.delete db i none).2.1.bank_accounts.filter
        fun r => r.entity_id == i && r.entity_type == "company") = [] ∧
      ∀ j, j < (BankAccount.get_by_entity db i "company").length + 1 →
        Company.delete db i (some j) =
          (.ok false, db, ["Error deleting company: storage error"])) ∧
      ((Client.delete db i none).1 = .ok (db.clients.any fun r => r.id == i) ∧
        (Client.delete db i none).2.1.clients.filter (fun r => r.id == i) = [] ∧
        ((Client.delete db i none).2.1.bank_accounts.filter
          fun r => r.entity_id == i && r.entity_type == "client") = [] ∧
        ∀ j, j < (BankAccount.get_by_entity db i "client").length + 1 →
          Client.delete db i (some j) =
            (.ok false, db, ["Error deleting client: storage error"])) := by
  constructor
  · refine ⟨by rw [Company_delete_ok], ?_, ?_, fun j hj => Company_delete_fail db i j hj⟩
    · rw [Company_delete_ok]
      exact filter_not_id_nil_company db.companies i
    · rw [Company_delete_ok]
      exact delete_bank_filter_nil db i "company"
  · refine ⟨by rw [Client_delete_ok], ?_, ?_, fun j hj => Client_delete_fail db i j hj⟩
    · rw [Client_delete_ok]
      exact filter_not_id_nil_client db.clients i
    · rw [Client_delete_ok]
      exact delete_bank_filter_nil db i "client"

theorem entity_delete_cascade_witness :
    (0 < (BankAccount.get_by_entity dbOne 1 "company").length + 1 ∧
      Company.delete dbOne 1 (some 0) =
        (.ok false, dbOne, ["Error deleting company: storage error"])) ∧
      (Company.delete dbOne 1 none).2.1.companies.filter (fun r => r.id == 1) = [] :=
  ⟨⟨by decide, (entity_delete_cascade dbOne 1).1.2.2.2 0 (by decide)⟩,
    (entity_delete_cascade dbOne 1).1.2.1⟩

/-- C4 counterexample: `BankAccount.create` with is_default commits the
default-clearing in a scoped transaction of its own; when the insert then
fails on the schema's UNIQUE(entity_id, entity_type, account_number)
constraint, the committed state has the old default cleared and the new row
absent. -/
theorem create_clear_commit_counterexample :
    BankAccount.create dbOne "Bank B" "123" 1 "company" none none "RON" true =
      (.error (.integrityError "UNIQUE constraint failed: bank_accounts.entity_id, bank_accounts.entity_type, bank_accounts.account_number"),
        { dbOne with bank_accounts := [{ bankRow1 with is_default := false }] }) := rfl

/-- C4 (amended): in `BankAccount.create` the clearing of existing defaults
runs in its own scoped transaction, committed before the insert's
transaction starts; if the insert fails (here on the UNIQUE constraint) the
error propagates but the already-committed clearing persists: the clearing
and the insert are not one scoped transaction. -/
theorem create_clear_commit (db : DB) (bn an : String) (e : Int) (t : String)
    (sc ib : Option String) (cur : String)
    (hbn : bn ≠ "") (han : an ≠ "") (he : ¬e ≤ 0) (ht : t = "company" ∨ t = "client")
    (hdup : ((clearDefaults db.bank_accounts e t).any fun r =>
      r.entity_id == e && r.entity_type == t && r.account_number == an) = true) :
    BankAccount.create db bn an e t sc ib cur true =
      (.error (.integrityError "UNIQUE constraint failed: bank_accounts.entity_id, bank_accounts.entity_type, bank_accounts.account_number"),
        { db with bank_accounts := clearDefaults db.bank_accounts e t }) := by
  have hdup1 : (({ db with bank_accounts := clearDefaults db.bank_accounts e t } :
      DB).bank_accounts.any fun r =>
        r.entity_id == e && r.entity_type == t && r.account_number == an) = true := hdup
  unfold BankAccount.create
  rw [if_neg hbn, if_neg han, if_neg he, if_neg (not_not_intro ht)]
  simp only [reduceIte]
  unfold bankInsert
  rw [if_pos hdup1]

theorem create_clear_commit_witness :
    ("Bank C" : String) ≠ "" ∧
      BankAccount.create dbOne "Bank C" "123" 1 "company" none none "RON" true =
        (.error (.integrityError "UNIQUE constraint failed: bank_accounts.entity_id, bank_accounts.entity_type, bank_accounts.account_number"),
          { dbOne with bank_accounts := [{ bankRow1 with is_default := false }] }) :=
  ⟨by decide, by
    have h := create_clear_commit dbOne "Bank C" "123" 1 "company" none none "RON"
      (by decide) (by decide) (by decide) (Or.inl rfl) (by decide)
    exact h⟩

/-- C6 counterexample: with the name empty and the email malformed,
`Company.create` raises a ValueError naming only the name field — no
aggregation of violations; and with the required fields filled the same
malformed email is accepted, showing there is no format validation at all. -/
theorem create_validation_counterexample :
    Company.create dbEmpty "" "1 Main St" "Bucharest" "J12/345/2021" "RO12345678"
        none none "Romania" true none (some "not-an-email") none none =
      (.error (.valueError "Company name cannot be empty"), dbEmpty) ∧
      (Company.create dbEmpty "Acme SRL" "1 Main St" "Bucharest" "J12/345/2021" "RO12345678"
        none none "Romania" true none (some "not-an-email") none none).1 = .ok 1 :=
  ⟨rfl, rfl⟩

/-- C6 (amended): `Company.create` validates only that the five required
fields (name, address, city, registration number, fiscal code) are
non-empty, in source order, raising a ValueError that names the first empty
field only; optional fields that are present (email, phone, website, and the
registration-number format) are stored without any format check — a create
whose only flaw is a malformed optional field succeeds. -/
theorem create_validation (db : DB) (n a c rn fc : String) (co po : Option String)
    (ct : String) (v : Bool) (ph em wb lg : Option String) :
    (n = "" → Company.create db n a c rn fc co po ct v ph em wb lg =
      (.error (.valueError "Company name cannot be empty"), db)) ∧
      (n ≠ "" → a ≠ "" → c ≠ "" → rn ≠ "" → fc ≠ "" →
        (∀ r ∈ db.companies, r.fiscal_code ≠ fc) →
        Company.create db n a c rn fc co po ct v ph em wb lg =
          (.ok db.next_company_id,
            { db with
                companies := db.companies ++
                  [companyRowOf db n a c rn fc co po ct v ph em wb lg]
                next_company_id := db.next_company_id + 1 })) := by
  constructor
  · intro h
    unfold Company.create
    rw [if_pos h]
  · intro h1 h2 h3 h4 h5 hfree
    exact Company_create_ok db n a c rn fc co po ct v ph em wb lg h1 h2 h3 h4 h5
      (find?_fiscal_none_of_forall CompanyRow.fiscal_code db.companies fc hfree)

theorem create_validation_witness :
    ("Acme SRL" : String) ≠ "" ∧
      (Company.create dbEmpty "Acme SRL" "1 Main St" "Bucharest" "J12/345/2021" "RO12345678"
        none none "Romania" true none (some "not-an-email") none none).1 = .ok 1 := by
  refine ⟨by decide, ?_⟩
  rw [(create_validation dbEmpty "Acme SRL" "1 Main St" "Bucharest" "J12/345/2021"
    "RO12345678" none none "Romania" true none (some "not-an-email") none none).2
    (by decide) (by decide) (by decide) (by decide) (by decide) (by decide)]
  rfl

/-- An orphan bank-account row: owner entity id 7 exists in no table. -/
def orphanRow : BankRow :=
  { id := 1, bank_name := "Test Bank", account_number := "123", swift_code := none,
    iban := none, currency := "RON", entity_id := 7, entity_type := "company",
    is_default := false }

/-- C7 counterexample: no entity with id 7 exists in either table, yet direct
`BankAccount.create` succeeds and inserts the row — the existence check
lives only in the entity managers. -/
theorem create_no_entity_check_counterexample :
    Company.get dbEmpty 7 = none ∧ Client.get dbEmpty 7 = none ∧
      BankAccount.create dbEmpty "Test Bank" "123" 7 "company" none none "RON" false =
        (.ok 1, { dbEmpty with bank_accounts := [orphanRow], next_account_id := 2 }) :=
  ⟨rfl, rfl, rfl⟩

/-- C7 (amended): creation through `Company.add_bank_account` /
`Client.add_bank_account` fails with a ValueError and inserts nothing when
the owning entity does not exist; `BankAccount.create` itself performs no
entity-existence check and inserts the row regardless of whether the entity
exists. -/
theorem add_bank_account_checks_entity (db : DB) (i : Int) (bn an : String)
    (sc ib : Option String) (cur : String) (d : Bool) :
    (Company.get db i = none →
      Company.add_bank_account db i bn an sc ib cur d =
        (.error (.valueError s!"Company with ID {i} does not exist"), db, [])) ∧
      (Client.get db i = none →
        Client.add_bank_account db i bn an sc ib cur d =
          (.error (.valueError s!"Client with ID {i} does not exist"), db, [])) ∧
      (bn ≠ "" → an ≠ "" → 0 < i →
        ((db.bank_accounts.any fun r =>
          r.entity_id == i && r.entity_type == "company" && r.account_number == an) = false) →
        BankAccount.create db bn an i "company" sc ib cur false =
          (.ok db.next_account_id,
            { db with
                bank_accounts := db.bank_accounts ++
                  [{ id := db.next_account_id, bank_name := bn, account_number := an,
                     swift_code := sc, iban := ib, currency := cur, entity_id := i,
                     entity_type := "company", is_default := false }]
                next_account_id := db.next_account_id + 1 })) := by
  refine ⟨?_, ?_, ?_⟩
  · intro h
    unfold Company.add_bank_account
    rw [h]
  · intro h
    unfold Client.add_bank_account
    rw [h]
  · intro hbn han hi hdup
    unfold BankAccount.create
    rw [if_neg hbn, if_neg han, if_neg (by omega), if_neg (not_not_intro (Or.inl rfl))]
    simp only [Bool.false_eq_true, reduceIte]
    unfold bankInsert
    rw [if_neg (by simp [hdup])]

theorem add_bank_account_checks_entity_witness :
    Company.get dbEmpty 7 = none ∧
      Company.add_bank_account dbEmpty 7 "Test Bank" "123" none none "RON" false =
        (.error (.valueError "Company with ID 7 does not exist"), dbEmpty, []) :=
  ⟨by decide,
    (add_bank_account_checks_entity dbEmpty 7 "Test Bank" "123" none none "RON" false).1
      (by decide)⟩

end Facatura
